import Mathlib

/-!
Verification of the half-duplex direct-to-engine chat adapter.

This file gives a shallow embedding, in Lean 4, of the protocol engine
(`DirectToEngineServerSentEventsChatAdapterAPI`), the single-use turn handle
(`createExecuteTurn` in `createHalfDuplexChatAdapter.ts`), the bounded retry
wrapper built on `pRetry`, the URL composition helper
(`resolveURLWithQueryAndHash`), and the chat-adapter facade, together with
theorems settling the specification claims about them.

Machine strings are Lean `String`; JavaScript truthiness of an optional
string (undefined or empty string are falsy) is modelled by `jsTruthy`.
Asynchronous generators are modelled as total functions from their inputs
(server responses, SSE events) to the list of values they yield plus the
requests they issue; a thrown error is an `Except.error`.
-/

namespace DirectToEngine

/-- `conversation` sub-record of an activity; the engine reads `conversation.id`. -/
structure Conversation where
  id : String
deriving DecidableEq

/-- An activity: the engine only inspects `type`, `text` and `conversation.id`;
all other fields are pass-through and omitted from the model. -/
structure Activity where
  type : String
  text : String
  conversation : Option Conversation
deriving DecidableEq

/-- JavaScript truthiness of an optional string: `undefined` (here `none`) and
the empty string are falsy, every other string is truthy. -/
def jsTruthy : Option String → Bool
  | some s => decide (s ≠ "")
  | none => false

/-- Models the template string piece `this.#conversationId || ''`. -/
def cidOrEmpty (cid : Option String) : String := cid.getD ""

/-- Models the conditional header spread
`...(this.#conversationId ? { "x-ms-conversationid": this.#conversationId } : {})`:
the header value when the id is truthy, `none` otherwise. -/
def truthyOrNone (cid : Option String) : Option String :=
  if jsTruthy cid then cid else none

/-! ## Single-use turn handle (`createExecuteTurn`) -/

/-- The rejection message thrown by an obsoleted turn handle. -/
def obsoletedErrorMessage : String :=
  "This executeTurn() function is obsoleted. Please use a new one."

/-- One invocation of the closure returned by `createExecuteTurn`.
The closure state is its captured `obsoleted` flag.  If the flag is set the
call rejects with `obsoletedErrorMessage`; otherwise the flag is set first and
only then is `api.executeTurn(activity)` awaited, whose outcome
(`engineOutcome`, a new activity stream or a rejection) is returned as is.
Note the new flag value does not depend on `engineOutcome`: the source sets
`obsoleted = true` before the `await`. -/
def invokeExecuteTurn (obsoleted : Bool) (engineOutcome : Except String (List Activity)) :
    Bool × Except String (List Activity) :=
  if obsoleted then (obsoleted, Except.error obsoletedErrorMessage)
  else (true, engineOutcome)

/-- Runs a sequence of invocations of one turn handle.  The list holds, for
each invocation, the outcome the engine would produce if it were reached; the
result lists what each invocation actually returned. -/
def runExecuteTurnCalls (obsoleted : Bool) :
    List (Except String (List Activity)) → List (Except String (List Activity))
  | [] => []
  | outcome :: rest =>
    let r := invokeExecuteTurn obsoleted outcome
    r.2 :: runExecuteTurnCalls r.1 rest

/-! ## URL model and `resolveURLWithQueryAndHash` -/

/-- A parsed WHATWG URL, restricted to the components this code touches.
`pathSegments` lists the segments after the leading slash, so path `/` is
`[""]` and `/conversations/c-1` is `["conversations", "c-1"]`.  `search` and
`hash` carry their leading `?` and `#` when non-empty, as in the DOM API. -/
structure ParsedURL where
  scheme : String
  host : String
  pathSegments : List String
  search : String
  hash : String
deriving DecidableEq

/-- Serialization of a `ParsedURL`, as `URL#href` would render it. -/
def ParsedURL.href (u : ParsedURL) : String :=
  u.scheme ++ "://" ++ u.host ++ "/" ++ String.intercalate "/" u.pathSegments
    ++ u.search ++ u.hash

/-- Splits a path reference into its slash-separated segments, accumulating
the characters of the current segment in reverse. -/
def splitSegmentsAux : List Char → List Char → List String
  | [], acc => [String.mk acc.reverse]
  | c :: rest, acc =>
    if c = '/' then String.mk acc.reverse :: splitSegmentsAux rest []
    else splitSegmentsAux rest (c :: acc)

/-- The slash-separated segments of a path reference, so `"conversations/c-1"`
gives `["conversations", "c-1"]` and `"conversations/"` gives
`["conversations", ""]`. -/
def splitSegments (s : String) : List String :=
  splitSegmentsAux s.data []

/-- Models `new URL(relativeURL, baseURL)` for the relative references this
code passes: scheme-less path-only references without a leading slash, query
or fragment (the code only ever resolves `conversations/` followed by a
conversation id).  Per WHATWG resolution, the last segment of the base path
is dropped and the segments of the reference are appended; the result carries
no query and no fragment. -/
def newURLRelativePath (relativeURL : String) (baseURL : ParsedURL) : ParsedURL :=
  { scheme := baseURL.scheme
    host := baseURL.host
    pathSegments := baseURL.pathSegments.dropLast ++ splitSegments relativeURL
    search := ""
    hash := "" }

/-- Embeds `resolveURLWithQueryAndHash`: resolve the relative URL against the
base, then overwrite the result with the base URL fragment and query. -/
def resolveURLWithQueryAndHash (relativeURL : String) (baseURL : ParsedURL) : ParsedURL :=
  let url := newURLRelativePath relativeURL baseURL
  { url with hash := baseURL.hash, search := baseURL.search }

/-! ## Bounded retry (`pRetry` with `onFailedAttempt` short-circuit) -/

/-- `RETRY_COUNT` from the source: `const RETRY_COUNT = 4; // Will call 5 times.` -/
def RETRY_COUNT : Nat := 4

/-- What a single attempt of the retried request phase does.
`httpFailure status` means `fetch` resolved with a response of the given
status and the attempt then threw (non-2xx, or in SSE mode a wrong
content-type or a missing body on a 2xx response); `currentResponse` is
updated to that response.  `networkFailure` means `fetch` itself rejected, so
`currentResponse` keeps its previous value. -/
inductive AttemptOutcome (α : Type)
  | success (value : α)
  | httpFailure (status : Nat)
  | networkFailure
deriving DecidableEq

/-- The `onFailedAttempt` guard: `currentResponse && currentResponse.status < 500`.
`none` models `currentResponse` still being `undefined`. -/
def responseShortCircuits : Option Nat → Bool
  | some status => decide (status < 500)
  | none => false

/-- True when an attempt fails at the transport level: a network error or a
5xx response.  `success` is not a failure. -/
def isTransportFailure : AttemptOutcome α → Bool
  | AttemptOutcome.success _ => false
  | AttemptOutcome.httpFailure status => decide (500 ≤ status)
  | AttemptOutcome.networkFailure => true

/-- Embeds `pRetry(fn, { onFailedAttempt, retries })` where `onFailedAttempt`
rethrows (aborting further retries) when the most recent response carries a
status below 500.  Arguments: retries still allowed, index of the current
attempt, status of `currentResponse` so far.  Returns the overall outcome
(an error carries the final `currentResponse` status) and the total number of
attempts made.  `attempts i` says what attempt number `i` would do. -/
def pRetryAux (attempts : Nat → AttemptOutcome α) :
    Nat → Nat → Option Nat → Except (Option Nat) α × Nat
  | 0, i, currentStatus =>
    match attempts i with
    | AttemptOutcome.success a => (Except.ok a, i + 1)
    | AttemptOutcome.httpFailure s => (Except.error (some s), i + 1)
    | AttemptOutcome.networkFailure => (Except.error currentStatus, i + 1)
  | r + 1, i, currentStatus =>
    match attempts i with
    | AttemptOutcome.success a => (Except.ok a, i + 1)
    | AttemptOutcome.httpFailure s =>
      if responseShortCircuits (some s) then (Except.error (some s), i + 1)
      else pRetryAux attempts r (i + 1) (some s)
    | AttemptOutcome.networkFailure =>
      if responseShortCircuits currentStatus then (Except.error currentStatus, i + 1)
      else pRetryAux attempts r (i + 1) currentStatus

/-- The retried request phase as the engine runs it: `retries: RETRY_COUNT`,
first attempt index 0, no response seen yet. -/
def pRetryRun (attempts : Nat → AttemptOutcome α) : Except (Option Nat) α × Nat :=
  pRetryAux attempts RETRY_COUNT 0 none

/-! ## REST turn loop (`#postWithREST`) -/

/-- A parsed `BotResponse` of the REST variant.  `action` is kept as the raw
string the loop compares against `"continue"`; `conversationId` is optional
and, per the JavaScript truthiness test in the source, an empty string counts
as absent. -/
structure BotResponse where
  action : String
  activities : List Activity
  conversationId : Option String
deriving DecidableEq

/-- The JSON body a request carries: the strategy-merged body on the first
iteration (`JSON.stringify(body)`), the empty object thereafter. -/
inductive HTTPBody (β : Type)
  | strategyBody (b : β)
  | emptyObject
deriving DecidableEq

/-- What one HTTP request issued by the engine looks like: its URL, the value
of the conditional `x-ms-conversationid` header (absent when the id is not
truthy yet), and its body.  The always-present headers
(`content-type: application/json`, strategy headers, and `accept` in SSE
mode) are constants in the source and are not recorded. -/
structure RequestRecord (β : Type) where
  url : ParsedURL
  conversationIdHeader : Option String
  body : HTTPBody β
deriving DecidableEq

/-- Embeds lines 143-145 of the engine:
`if (botResponse.conversationId) { this.#conversationId = botResponse.conversationId; }` -
the assignment is unconditional on the current id. -/
def restUpdateConversationId (cid : Option String) (responseCid : Option String) :
    Option String :=
  if jsTruthy responseCid then responseCid else cid

/-- `MAX_TURN` from the source: the hard ceiling on iterations of one turn. -/
def MAX_TURN : Nat := 1000

/-- The result of running `#postWithREST` when every request phase succeeds:
the final engine conversation id, the activities yielded in order, and the
requests issued in order. -/
structure RestRunResult (β : Type) where
  conversationId : Option String
  activities : List Activity
  requests : List (RequestRecord β)
deriving DecidableEq

/-- One-for-one embedding of the `for (numTurn = 0; numTurn < MAX_TURN; ...)`
loop of `#postWithREST`, with `responses hopIdx` the parsed `BotResponse` of
the request issued at iteration `hopIdx` (the model assumes that on each
retried request phase succeeds; retries are modelled by `pRetryAux`).  Each
iteration records the request (URL resolved through
`resolveURLWithQueryAndHash`, conditional id header, body governed by
`withBody`), adopts the response conversation id per
`restUpdateConversationId`, yields the response activities, clears
`withBody`, and continues only while `action` equals `"continue"` and fuel
remains. -/
def restLoop (baseURL : ParsedURL) (strategyBody : β) (responses : Nat → BotResponse) :
    Nat → Nat → Bool → Option String → RestRunResult β
  | 0, _, _, cid => { conversationId := cid, activities := [], requests := [] }
  | fuel + 1, hopIdx, withBody, cid =>
    let req : RequestRecord β :=
      { url := resolveURLWithQueryAndHash ("conversations/" ++ cidOrEmpty cid) baseURL
        conversationIdHeader := truthyOrNone cid
        body := if withBody then HTTPBody.strategyBody strategyBody else HTTPBody.emptyObject }
    let response := responses hopIdx
    let newCid := restUpdateConversationId cid response.conversationId
    if response.action = "continue" then
      let rest := restLoop baseURL strategyBody responses fuel (hopIdx + 1) false newCid
      { conversationId := rest.conversationId
        activities := response.activities ++ rest.activities
        requests := req :: rest.requests }
    else
      { conversationId := newCid, activities := response.activities, requests := [req] }

/-- `#postWithREST` for one turn: `MAX_TURN` iterations of fuel, starting at
iteration 0 with `withBody = true`. -/
def postWithREST (baseURL : ParsedURL) (strategyBody : β) (cid : Option String)
    (responses : Nat → BotResponse) : RestRunResult β :=
  restLoop baseURL strategyBody responses MAX_TURN 0 true cid

/-- The activities contained in `fuel` consecutive bot responses starting at
`hopIdx`, concatenated in order. -/
def collectedActivities (responses : Nat → BotResponse) : Nat → Nat → List Activity
  | _, 0 => []
  | hopIdx, fuel + 1 =>
    (responses hopIdx).activities ++ collectedActivities responses (hopIdx + 1) fuel

/-! ## SSE turn reader (`#postWithServerSentEvents`) -/

/-- A parsed server-sent event as seen by the `TransformStream`: an
`activity` event whose data already went through `JSON.parse`, the terminal
`end` event, or an event with any other name (ignored). -/
inductive SSEItem
  | activity (a : Activity)
  | endEvent
  | other (event : String)
deriving DecidableEq

/-- Embeds lines 239-241 of the engine:
`if (!this.#conversationId) { this.#conversationId = activity.conversation.id; }` -
the id is adopted from the activity only when the current id is falsy. -/
def sseAdoptConversationId (cid : Option String) (a : Activity) : Option String :=
  if jsTruthy cid then cid else a.conversation.map Conversation.id

/-- The single request `#postWithServerSentEvents` issues, built exactly like
a REST request except that the strategy body is always sent. -/
def sseRequest (baseURL : ParsedURL) (strategyBody : β) (cid : Option String) :
    RequestRecord β :=
  { url := resolveURLWithQueryAndHash ("conversations/" ++ cidOrEmpty cid) baseURL
    conversationIdHeader := truthyOrNone cid
    body := HTTPBody.strategyBody strategyBody }

/-- The `TransformStream` of `#postWithServerSentEvents` over the parsed
event stream: `end` terminates the turn (later events are never read),
`activity` adopts the conversation id when unset and enqueues the activity,
any other event is ignored.  Returns the final engine conversation id and
the activities yielded in order. -/
def sseProcess : Option String → List SSEItem → Option String × List Activity
  | cid, [] => (cid, [])
  | cid, SSEItem.endEvent :: _ => (cid, [])
  | cid, SSEItem.activity a :: rest =>
    let result := sseProcess (sseAdoptConversationId cid a) rest
    (result.1, a :: result.2)
  | cid, SSEItem.other _ :: rest => sseProcess cid rest

/-! ## Protocol engine (`executeTurn`) -/

/-- The error thrown by `executeTurn` when no conversation has been started. -/
def startBeforeExecuteError : String :=
  "startNewConversation() must be called before executeTurn()."

/-- What `prepareStartNewConversation` / `prepareExecuteTurn` return:
a base URL, the static strategy body, and the transport choice.  The strategy
headers are opaque to the engine and omitted. -/
structure StrategyRequestPrep (β : Type) where
  baseURL : ParsedURL
  body : β
  transport : String
deriving DecidableEq

/-- The merged request body: `{ ...body, emitStartConversationEvent }` for a
conversation start, `{ ...body, activity }` for a user turn. -/
inductive TurnBody (β : Type)
  | startBody (strategyBody : β) (emitStartConversationEvent : Bool)
  | executeBody (strategyBody : β) (activity : Activity)
deriving DecidableEq

/-- Observable steps of a turn, in order: the strategy being consulted, and
each HTTP request being issued. -/
inductive EngineEvent (β : Type)
  | consultedPrepareExecuteTurn
  | httpRequest (req : RequestRecord β)
deriving DecidableEq

/-- The body of the async generator returned by `executeTurn(activity)`, as
run by its first pull: if the engine conversation id is falsy it throws
`startBeforeExecuteError` at once, producing no event; otherwise it consults
`prepareExecuteTurn`, merges the activity into the strategy body, and
dispatches on the transport, issuing the requests of the chosen variant.
`responses` feeds the REST variant and `sseEvents` the SSE variant. -/
def executeTurnRun (cid : Option String) (prep : StrategyRequestPrep β)
    (activity : Activity) (responses : Nat → BotResponse) (sseEvents : List SSEItem) :
    List (EngineEvent (TurnBody β)) × Except String (List Activity) :=
  if jsTruthy cid then
    let mergedBody := TurnBody.executeBody prep.body activity
    if prep.transport = "server sent events" then
      let req := sseRequest prep.baseURL mergedBody cid
      let processed := sseProcess cid sseEvents
      ([EngineEvent.consultedPrepareExecuteTurn, EngineEvent.httpRequest req],
        Except.ok processed.2)
    else
      let run := postWithREST prep.baseURL mergedBody cid responses
      (EngineEvent.consultedPrepareExecuteTurn :: run.requests.map EngineEvent.httpRequest,
        Except.ok run.activities)
  else
    ([], Except.error startBeforeExecuteError)

/-! ## Chat-adapter facade -/

/-- The facade-visible connection status values, numbered 0 to 5. -/
inductive ConnectionStatus
  | uninitialized
  | connecting
  | online
  | expiredToken
  | failedToConnect
  | ended
deriving DecidableEq

/-- The integer wire value of each connection status. -/
def ConnectionStatus.toNat : ConnectionStatus → Nat
  | ConnectionStatus.uninitialized => 0
  | ConnectionStatus.connecting => 1
  | ConnectionStatus.online => 2
  | ConnectionStatus.expiredToken => 3
  | ConnectionStatus.failedToConnect => 4
  | ConnectionStatus.ended => 5

/-- One notification of an observer-style stream. -/
inductive Notification (α : Type)
  | start
  | next (value : α)
  | error (message : String)
  | complete
deriving DecidableEq

/-- Everything the three facade streams emitted: the observations of
`connectionStatus$`, the observations of `activity$`, and one observation
list per `postActivity` call, in call order. -/
structure FacadeResult where
  connectionStatusObservations : List (Notification ConnectionStatus)
  activityObservations : List (Notification Activity)
  postObservations : List (List (Notification String))
deriving DecidableEq

/-- Modelled from the spec: the chat-adapter facade (`TurnBasedChatAdapter`,
spec section 4.7) is not under `src/`; only its unit test is.  Processes the
queued `postActivity` calls one at a time, each given the outcome of its
`execute` call: while no error is cached, a successful turn emits its
activities to `activity$` and completes the post with a synthetic id; a
thrown error makes the pending post error with it, emits `FailedToConnect`
on `connectionStatus$` and completes it, completes `activity$`, and caches
the error; once an error is cached every later post errors with the cached
error immediately. -/
def facadeLoop (conn : List (Notification ConnectionStatus))
    (act : List (Notification Activity)) (postObs : List (List (Notification String))) :
    Option String → List (Except String (List Activity)) → FacadeResult
  | _, [] =>
    { connectionStatusObservations := conn
      activityObservations := act
      postObservations := postObs }
  | some e, _ :: rest =>
    facadeLoop conn act
      (postObs ++ [[Notification.start, Notification.error e]]) (some e) rest
  | none, Except.ok activities :: rest =>
    facadeLoop conn (act ++ activities.map Notification.next)
      (postObs ++ [[Notification.start, Notification.next "0000", Notification.complete]])
      none rest
  | none, Except.error e :: rest =>
    facadeLoop
      (conn ++ [Notification.next ConnectionStatus.failedToConnect, Notification.complete])
      (act ++ [Notification.complete])
      (postObs ++ [[Notification.start, Notification.error e]]) (some e) rest

/-- Modelled from the spec: a full facade session.  On first subscription the
facade emits `Uninitialized`, `Connecting`, then `Online` once the initial
activity stream completes its first iteration, republishing the initial
activities; it then serves the queued posts through `facadeLoop`. -/
def facadeRun (initialActivities : List Activity)
    (posts : List (Except String (List Activity))) : FacadeResult :=
  facadeLoop
    [Notification.start, Notification.next ConnectionStatus.uninitialized,
      Notification.next ConnectionStatus.connecting,
      Notification.next ConnectionStatus.online]
    (Notification.start :: initialActivities.map Notification.next)
    [] none posts

/-! ## Concrete fixtures for witnesses and counterexamples -/

/-- The base URL of the spec example: `http://host/?api=start#1`. -/
def exampleBaseURL : ParsedURL :=
  { scheme := "http", host := "host", pathSegments := [""],
    search := "?api=start", hash := "#1" }

/-- A plain message activity. -/
def exampleActivity : Activity :=
  { type := "message", text := "Hello, World!", conversation := none }

/-- An activity carrying a conversation id, as an SSE `activity` event would. -/
def exampleConversationActivity : Activity :=
  { type := "message", text := "Aloha!", conversation := some { id := "c-00002" } }

/-- A server that answers every request with action `"continue"`. -/
def continueResponses : Nat → BotResponse :=
  fun _ => { action := "continue", activities := [exampleActivity], conversationId := none }

/-- A server that ends the turn on the first response. -/
def waitingResponses : Nat → BotResponse :=
  fun _ => { action := "waiting", activities := [exampleActivity], conversationId := none }

/-- A server whose first response sets conversation id `c-00001` and whose
second response carries the different id `c-00002`. -/
def overwriteResponses : Nat → BotResponse :=
  fun i =>
    if i = 0 then { action := "continue", activities := [], conversationId := some "c-00001" }
    else { action := "waiting", activities := [], conversationId := some "c-00002" }

/-- The first (and only) request of a turn against `waitingResponses` when no
conversation id is known yet. -/
def exampleFirstRequest : RequestRecord String :=
  { url := resolveURLWithQueryAndHash "conversations/" exampleBaseURL
    conversationIdHeader := none
    body := HTTPBody.strategyBody "dummy" }

/-- A strategy preparation pointing at the example base URL over REST. -/
def examplePrep : StrategyRequestPrep String :=
  { baseURL := exampleBaseURL, body := "dummy", transport := "rest" }

lemma runExecuteTurnCalls_obsoleted (outcomes : List (Except String (List Activity))) :
    runExecuteTurnCalls true outcomes
      = outcomes.map (fun _ => Except.error obsoletedErrorMessage) := by
  induction outcomes with
  | nil => rfl
  | cons x rest ih => simp [runExecuteTurnCalls, invokeExecuteTurn, ih]

lemma pRetryAux_all_transport_failures (attempts : Nat → AttemptOutcome α)
    (h : ∀ j, isTransportFailure (attempts j) = true) :
    ∀ (r i : Nat) (cur : Option Nat), responseShortCircuits cur = false →
      (pRetryAux attempts r i cur).2 = i + r + 1 ∧
      ∃ e, (pRetryAux attempts r i cur).1 = Except.error e := by
  intro r
  induction r with
  | zero =>
    intro i cur hcur
    cases hi : attempts i with
    | success a => have := h i; rw [hi] at this; simp [isTransportFailure] at this
    | httpFailure s => simp [pRetryAux, hi]
    | networkFailure => simp [pRetryAux, hi]
  | succ n ih =>
    intro i cur hcur
    cases hi : attempts i with
    | success a => have := h i; rw [hi] at this; simp [isTransportFailure] at this
    | httpFailure s =>
      have hs : 500 ≤ s := by
        have := h i; rw [hi] at this; simpa [isTransportFailure] using this
      have hsc : responseShortCircuits (some s) = false := by
        simp [responseShortCircuits]; omega
      have := ih (i + 1) (some s) hsc
      simp [pRetryAux, hi, hsc]
      exact ⟨by rw [this.1]; omega, this.2⟩
    | networkFailure =>
      have := ih (i + 1) cur hcur
      simp [pRetryAux, hi, hcur]
      exact ⟨by rw [this.1]; omega, this.2⟩

end DirectToEngine

namespace DirectToEngine

/-- Claim C4: When the underlying HTTP exchange fails at the transport level on
every attempt (a network error or a 5xx response each time), the engine makes
exactly 5 HTTP attempts (1 initial + RETRY_COUNT = 4 retries) and the request
phase then fails, failing the turn. -/
theorem retry_exhaustion_five_attempts (attempts : Nat → AttemptOutcome (List Activity))
    (h : ∀ j, isTransportFailure (attempts j) = true) :
    (pRetryRun attempts).2 = 5 ∧ ∃ e, (pRetryRun attempts).1 = Except.error e := by
  have := pRetryAux_all_transport_failures attempts h RETRY_COUNT 0 none rfl
  exact ⟨this.1, this.2⟩

/-- Witness for `retry_exhaustion_five_attempts`: every attempt is a network
failure. -/
theorem retry_exhaustion_five_attempts_witness :
    (pRetryRun (fun _ => AttemptOutcome.networkFailure (α := List Activity))).2 = 5 ∧
    ∃ e, (pRetryRun (fun _ => AttemptOutcome.networkFailure (α := List Activity))).1
      = Except.error e :=
  retry_exhaustion_five_attempts (fun _ => AttemptOutcome.networkFailure) (fun _ => rfl)

/-- Claim C5: When an attempt of the retried request phase fails while the most
recent HTTP response carries a status below 500 (for example a 404 on the
first conversation POST, or a 2xx whose SSE content-type check throws), no
further attempt is made: the run aborts right after that attempt, so a
first-attempt failure of this kind means exactly 1 HTTP attempt in total, and
the failure propagates immediately as the error of the turn. -/
theorem retry_short_circuit_single_attempt
    (attempts : Nat → AttemptOutcome (List Activity)) (s : Nat)
    (hs : s < 500) :
    (∀ (r i : Nat) (cur : Option Nat), attempts i = AttemptOutcome.httpFailure s →
        pRetryAux attempts r i cur = (Except.error (some s), i + 1)) ∧
    (attempts 0 = AttemptOutcome.httpFailure s →
        pRetryRun attempts = (Except.error (some s), 1)) := by
  have main : ∀ (r i : Nat) (cur : Option Nat), attempts i = AttemptOutcome.httpFailure s →
      pRetryAux attempts r i cur = (Except.error (some s), i + 1) := by
    intro r i cur hi
    cases r with
    | zero => simp [pRetryAux, hi]
    | succ n =>
      have hsc : responseShortCircuits (some s) = true := by
        simp [responseShortCircuits]; omega
      simp [pRetryAux, hi, hsc]
  exact ⟨main, fun h0 => main RETRY_COUNT 0 none h0⟩

/-- Witness for `retry_short_circuit_single_attempt`: the server answers 404 on
the first attempt; exactly one attempt is made. -/
theorem retry_short_circuit_single_attempt_witness :
    pRetryRun (fun _ => AttemptOutcome.httpFailure (α := List Activity) 404)
      = (Except.error (some 404), 1) :=
  (retry_short_circuit_single_attempt (fun _ => AttemptOutcome.httpFailure 404) 404
    (by decide)).2 rfl

/-- Claim C1: A turn handle is successfully invocable at most once: the first
invocation returns whatever the engine produces (possibly a new turn stream),
and every invocation after the first rejects with
"This executeTurn() function is obsoleted. Please use a new one.". -/
theorem executeTurn_handle_single_use (first : Except String (List Activity))
    (rest : List (Except String (List Activity))) :
    runExecuteTurnCalls false (first :: rest)
      = first :: rest.map (fun _ => Except.error obsoletedErrorMessage) := by
  simp [runExecuteTurnCalls, invokeExecuteTurn, runExecuteTurnCalls_obsoleted]

/-- Claim C10: The obsoleted flag is set before the engine is awaited: a first
invocation whose engine outcome is a rejection still consumes the handle
(the flag becomes `true`), so every later invocation rejects with the
obsoletion message even though the first invocation produced no stream. -/
theorem handle_consumed_on_failure (e : String)
    (rest : List (Except String (List Activity))) :
    (invokeExecuteTurn false (Except.error e)).1 = true ∧
    runExecuteTurnCalls false (Except.error e :: rest)
      = Except.error e :: rest.map (fun _ => Except.error obsoletedErrorMessage) := by
  refine ⟨rfl, ?_⟩
  simp [runExecuteTurnCalls, invokeExecuteTurn, runExecuteTurnCalls_obsoleted]

/-- Claim C3: On an engine whose conversation id is unset (falsy), the
generator returned by `executeTurn(activity)` fails on its first pull with
the error "startNewConversation() must be called before executeTurn().",
producing no observable event: the strategy method `prepareExecuteTurn` is
not consulted and no HTTP request is issued. -/
theorem executeTurn_requires_conversation {β : Type} (cid : Option String)
    (prep : StrategyRequestPrep β) (activity : Activity)
    (responses : Nat → BotResponse) (sseEvents : List SSEItem)
    (h : jsTruthy cid = false) :
    executeTurnRun cid prep activity responses sseEvents
      = ([], Except.error "startNewConversation() must be called before executeTurn().") := by
  simp [executeTurnRun, h, startBeforeExecuteError]

/-- Witness for `executeTurn_requires_conversation`: a fresh engine
(`conversationId` still undefined). -/
theorem executeTurn_requires_conversation_witness :
    executeTurnRun none examplePrep exampleActivity continueResponses []
      = ([], Except.error "startNewConversation() must be called before executeTurn().") :=
  executeTurn_requires_conversation none examplePrep exampleActivity continueResponses []
    rfl

lemma sseProcess_preserves_truthy_cid (cid : Option String)
    (h : jsTruthy cid = true) :
    ∀ events : List SSEItem, (sseProcess cid events).1 = cid := by
  intro events
  induction events with
  | nil => rfl
  | cons ev rest ih =>
    cases ev with
    | activity a => simpa [sseProcess, sseAdoptConversationId, h] using ih
    | endEvent => rfl
    | other e => simpa [sseProcess] using ih

/-- Counterexample to claim C2: against `overwriteResponses`, a single REST
turn first adopts conversation id `c-00001` (witnessed by the
`x-ms-conversationid` header of the second request of the turn), and the
second response, carrying `c-00002`, then overwrites the already-set id:
the engine ends the turn with `c-00002`.  Lines 143-145 of the engine assign
`this.#conversationId = botResponse.conversationId` whenever the response id
is truthy, without checking whether an id is already set. -/
theorem conversationId_overwrite_counterexample :
    ((postWithREST exampleBaseURL "dummy" none overwriteResponses).requests.map
        RequestRecord.conversationIdHeader = [none, some "c-00001"]) ∧
    (postWithREST exampleBaseURL "dummy" none overwriteResponses).conversationId
      = some "c-00002" ∧
    some "c-00002" ≠ some "c-00001" := by
  refine ⟨?_, ?_, by decide⟩ <;> decide

/-- Claim C2 as amended: once the engine conversation id is truthy, an SSE
activity event never changes it; a REST `BotResponse`, however, overwrites
the id with its own `conversationId` whenever that field is truthy — even if
an id is already set — and leaves the id unchanged only when the field is
absent or empty. -/
theorem conversationId_update_behavior :
    (∀ (cid : Option String) (events : List SSEItem),
        jsTruthy cid = true → (sseProcess cid events).1 = cid) ∧
    (∀ cid responseCid : Option String,
        jsTruthy responseCid = true → restUpdateConversationId cid responseCid = responseCid) ∧
    (∀ cid responseCid : Option String,
        jsTruthy responseCid = false → restUpdateConversationId cid responseCid = cid) := by
  refine ⟨fun cid events h => sseProcess_preserves_truthy_cid cid h events, ?_, ?_⟩
  · intro cid responseCid h
    simp [restUpdateConversationId, h]
  · intro cid responseCid h
    simp [restUpdateConversationId, h]

/-- Witness for `conversationId_update_behavior`: a set id survives an SSE
activity event carrying a different conversation id; a REST response carrying
`c-00002` overwrites a set id `c-00001`; a REST response without an id leaves
`c-00001` in place. -/
theorem conversationId_update_behavior_witness :
    (sseProcess (some "c-00001") [SSEItem.activity exampleConversationActivity]).1
      = some "c-00001" ∧
    restUpdateConversationId (some "c-00001") (some "c-00002") = some "c-00002" ∧
    restUpdateConversationId (some "c-00001") none = some "c-00001" :=
  ⟨conversationId_update_behavior.1 (some "c-00001")
      [SSEItem.activity exampleConversationActivity] (by decide),
    conversationId_update_behavior.2.1 (some "c-00001") (some "c-00002") (by decide),
    conversationId_update_behavior.2.2 (some "c-00001") none (by decide)⟩

lemma cidOrEmpty_eq_truthyOrNone (cid : Option String) :
    cidOrEmpty cid = (truthyOrNone cid).getD "" := by
  cases cid with
  | none => rfl
  | some s =>
    by_cases h : s = ""
    · simp [cidOrEmpty, truthyOrNone, jsTruthy, h]
    · simp [cidOrEmpty, truthyOrNone, jsTruthy, h]

lemma restLoop_url_resolution (baseURL : ParsedURL) (b : β)
    (responses : Nat → BotResponse) :
    ∀ (fuel hopIdx : Nat) (withBody : Bool) (cid : Option String)
      (req : RequestRecord β),
      req ∈ (restLoop baseURL b responses fuel hopIdx withBody cid).requests →
      req.url = resolveURLWithQueryAndHash
        ("conversations/" ++ req.conversationIdHeader.getD "") baseURL := by
  intro fuel
  induction fuel with
  | zero =>
    intro hop wb cid req hmem
    simp [restLoop] at hmem
  | succ n ih =>
    intro hop wb cid req hmem
    by_cases hc : (responses hop).action = "continue"
    · simp [restLoop, hc] at hmem
      rcases hmem with h | h
      · subst h; simp [cidOrEmpty_eq_truthyOrNone]
      · exact ih (hop + 1) false _ req h
    · simp [restLoop, hc] at hmem
      subst hmem; simp [cidOrEmpty_eq_truthyOrNone]

/-- Claim C6: Every HTTP request of a turn addresses the path
`conversations/` followed by the known conversation id (empty when unset),
resolved against the strategy base URL, with the query string and fragment of
the resolved URL then overwritten by the base URL query and fragment
verbatim.  In particular the base URL `http://host/?api=start#1` with the
path `conversations/c-1` yields `http://host/conversations/c-1?api=start#1`.
Stated here as: the overwrite preserves the base query and fragment on every
resolution; every request of a REST turn and the single request of an SSE
turn use exactly this resolution; and the spec example evaluates as above. -/
theorem request_url_composition :
    (∀ (relativeURL : String) (baseURL : ParsedURL),
        (resolveURLWithQueryAndHash relativeURL baseURL).search = baseURL.search ∧
        (resolveURLWithQueryAndHash relativeURL baseURL).hash = baseURL.hash) ∧
    (∀ (baseURL : ParsedURL) (b : String) (cid : Option String)
        (responses : Nat → BotResponse) (req : RequestRecord String),
        req ∈ (postWithREST baseURL b cid responses).requests →
        req.url = resolveURLWithQueryAndHash
          ("conversations/" ++ req.conversationIdHeader.getD "") baseURL) ∧
    (∀ (baseURL : ParsedURL) (b : String) (cid : Option String),
        (sseRequest baseURL b cid).url = resolveURLWithQueryAndHash
          ("conversations/" ++ cidOrEmpty cid) baseURL) ∧
    (resolveURLWithQueryAndHash "conversations/c-1" exampleBaseURL).href
      = "http://host/conversations/c-1?api=start#1" := by
  refine ⟨fun rel base => ⟨rfl, rfl⟩, ?_, fun base b cid => rfl, by decide⟩
  intro base b cid responses req hmem
  exact restLoop_url_resolution base b responses MAX_TURN 0 true cid req hmem

/-- Witness for `request_url_composition`: the first request of a turn with
no conversation id, against the example base URL. -/
theorem request_url_composition_witness :
    exampleFirstRequest.url = resolveURLWithQueryAndHash
      ("conversations/" ++ exampleFirstRequest.conversationIdHeader.getD "")
      exampleBaseURL :=
  request_url_composition.2.1 exampleBaseURL "dummy" none waitingResponses
    exampleFirstRequest (by decide)

lemma restLoop_bodies_after_first (baseURL : ParsedURL) (b : β)
    (responses : Nat → BotResponse) :
    ∀ (fuel hopIdx : Nat) (cid : Option String),
      (restLoop baseURL b responses fuel hopIdx false cid).requests.map
          RequestRecord.body
        = List.replicate
            (restLoop baseURL b responses fuel hopIdx false cid).requests.length
            HTTPBody.emptyObject := by
  intro fuel
  induction fuel with
  | zero => intro hop cid; simp [restLoop]
  | succ n ih =>
    intro hop cid
    by_cases hc : (responses hop).action = "continue"
    · simp [restLoop, hc, List.replicate_succ, ih (hop + 1)]
    · simp [restLoop, hc, List.replicate_succ]

/-- Claim C7: In REST mode, only the first HTTP request of a turn carries the
strategy-supplied body (already merged with `emitStartConversationEvent` or
the user activity upstream); every continuation hop carries the JSON body of
the empty object. -/
theorem rest_first_request_body_only {β : Type} (baseURL : ParsedURL) (b : β)
    (cid : Option String) (responses : Nat → BotResponse) :
    (postWithREST baseURL b cid responses).requests.map RequestRecord.body
      = HTTPBody.strategyBody b
          :: List.replicate
              ((postWithREST baseURL b cid responses).requests.length - 1)
              HTTPBody.emptyObject := by
  have step : ∀ (fuel : Nat),
      (restLoop baseURL b responses (fuel + 1) 0 true cid).requests.map
          RequestRecord.body
        = HTTPBody.strategyBody b
            :: List.replicate
                ((restLoop baseURL b responses (fuel + 1) 0 true cid).requests.length - 1)
                HTTPBody.emptyObject := by
    intro fuel
    by_cases hc : (responses 0).action = "continue"
    · simp [restLoop, hc, restLoop_bodies_after_first]
    · simp [restLoop, hc]
  have h1000 : MAX_TURN = 999 + 1 := rfl
  unfold postWithREST
  rw [h1000]
  exact step 999

lemma restLoop_continue_forever (baseURL : ParsedURL) (b : β)
    (responses : Nat → BotResponse)
    (h : ∀ i, (responses i).action = "continue") :
    ∀ (fuel hopIdx : Nat) (withBody : Bool) (cid : Option String),
      (restLoop baseURL b responses fuel hopIdx withBody cid).requests.length = fuel ∧
      (restLoop baseURL b responses fuel hopIdx withBody cid).activities
        = collectedActivities responses hopIdx fuel := by
  intro fuel
  induction fuel with
  | zero => intro hop wb cid; simp [restLoop, collectedActivities]
  | succ n ih =>
    intro hop wb cid
    have hrec := ih (hop + 1) false
      (restUpdateConversationId cid (responses hop).conversationId)
    simp [restLoop, h hop, collectedActivities, hrec.1, hrec.2]

lemma restLoop_length_le (baseURL : ParsedURL) (b : β)
    (responses : Nat → BotResponse) :
    ∀ (fuel hopIdx : Nat) (withBody : Bool) (cid : Option String),
      (restLoop baseURL b responses fuel hopIdx withBody cid).requests.length ≤ fuel := by
  intro fuel
  induction fuel with
  | zero => intro hop wb cid; simp [restLoop]
  | succ n ih =>
    intro hop wb cid
    by_cases hc : (responses hop).action = "continue"
    · simp only [restLoop, hc, if_true, List.length_cons]
      exact Nat.succ_le_succ (ih (hop + 1) false _)
    · simp [restLoop, hc]

/-- Claim C8: a single REST turn performs at most `MAX_TURN = 1000` HTTP
exchanges; against a server that answers every request with action
`"continue"`, the turn performs exactly 1000 exchanges and then terminates
cleanly (the loop just exits, no error), having yielded in order all
activities of the 1000 responses received. -/
theorem rest_turn_iteration_cap {β : Type} (baseURL : ParsedURL) (b : β)
    (cid : Option String) (responses : Nat → BotResponse)
    (h : ∀ i, (responses i).action = "continue") :
    (∀ (cid2 : Option String) (responses2 : Nat → BotResponse),
        (postWithREST baseURL b cid2 responses2).requests.length ≤ 1000) ∧
    (postWithREST baseURL b cid responses).requests.length = 1000 ∧
    (postWithREST baseURL b cid responses).activities
      = collectedActivities responses 0 1000 := by
  refine ⟨fun cid2 responses2 => ?_, ?_, ?_⟩
  · exact restLoop_length_le baseURL b responses2 MAX_TURN 0 true cid2
  · exact (restLoop_continue_forever baseURL b responses h MAX_TURN 0 true cid).1
  · exact (restLoop_continue_forever baseURL b responses h MAX_TURN 0 true cid).2

/-- Witness for `rest_turn_iteration_cap`: a server answering `"continue"`
forever. -/
theorem rest_turn_iteration_cap_witness :
    (postWithREST exampleBaseURL "dummy" none continueResponses).requests.length = 1000 ∧
    (postWithREST exampleBaseURL "dummy" none continueResponses).activities
      = collectedActivities continueResponses 0 1000 :=
  (rest_turn_iteration_cap exampleBaseURL "dummy" none continueResponses
    (fun _ => rfl)).2

lemma facadeLoop_cached_error (conn : List (Notification ConnectionStatus))
    (act : List (Notification Activity)) (e : String) :
    ∀ (posts : List (Except String (List Activity)))
      (postObs : List (List (Notification String))),
      facadeLoop conn act postObs (some e) posts
        = { connectionStatusObservations := conn
            activityObservations := act
            postObservations :=
              postObs ++ posts.map (fun _ => [Notification.start, Notification.error e]) } := by
  intro posts
  induction posts with
  | nil => intro postObs; simp [facadeLoop]
  | cons p rest ih => intro postObs; simp [facadeLoop, ih]

/-- Claim C9: When the `execute` callable of the facade throws, the pending
`postActivity` subscriber errors with the thrown error; `connectionStatus$`
emits, in order, Uninitialized, Connecting, Online, FailedToConnect and then
completes; `activity$` completes; and every subsequent `postActivity` call
errors with the same cached error.  Stated on the test scenario: an empty
initial stream, a first post whose `execute` throws `e`, then any number of
later posts. -/
theorem facade_failure_behavior (e : String)
    (later : List (Except String (List Activity))) :
    facadeRun [] (Except.error e :: later)
      = { connectionStatusObservations :=
            [Notification.start, Notification.next ConnectionStatus.uninitialized,
              Notification.next ConnectionStatus.connecting,
              Notification.next ConnectionStatus.online,
              Notification.next ConnectionStatus.failedToConnect, Notification.complete]
          activityObservations := [Notification.start, Notification.complete]
          postObservations :=
            [Notification.start, Notification.error e]
              :: later.map (fun _ => [Notification.start, Notification.error e]) } := by
  simp [facadeRun, facadeLoop, facadeLoop_cached_error]

end DirectToEngine
